import Mathlib

/-!
Verification of the Discovery Engine MCP server (src/server.py) against its
natural-language specification.

The Python module is shallowly embedded: JSON values become the inductive
`JsonVal`, Python dicts become association lists (`PyDict`), the HTTP layer is
abstracted as a `RequestOutcome` input (the received response, or a caught
transport failure), the filesystem as a record of query functions (`FileSys`),
and an uncaught Python exception as the `Except.error` constructor.  Machine
floats appear only as pass-through payload numbers and in megabyte formatting;
the latter is modelled as exact round-half-even decimal rounding of the
rational value `bytes / 2^20`.
-/

/-- A decoded JSON value, as produced by `resp.json()`.  Numbers are modelled
as integers (no claim exercises fractional values). -/
inductive JsonVal where
  | null
  | bool (b : Bool)
  | num (n : Int)
  | str (s : String)
  | arr (elems : List JsonVal)
  | obj (fields : List (String × JsonVal))

/-- A Python dict with JSON values: an association list in insertion order. -/
abbrev PyDict := List (String × JsonVal)

/-- First binding of key `k`, like a Python dict lookup (keys are unique in
every dict the program builds, so first-match is exact). -/
def dictLookup (d : PyDict) (k : String) : Option JsonVal :=
  match d with
  | [] => none
  | (k2, v) :: rest => if k2 = k then some v else dictLookup rest k

/-- Python `k in d` on a dict. -/
def hasKey (d : PyDict) (k : String) : Bool :=
  (dictLookup d k).isSome

/-- Python `d.get(k)`: the value, or `None` when the key is absent. -/
def pyGet (d : PyDict) (k : String) : JsonVal :=
  (dictLookup d k).getD .null

/-- Python `d.get(k, dflt)`. -/
def pyGetD (d : PyDict) (k : String) (dflt : JsonVal) : JsonVal :=
  (dictLookup d k).getD dflt

/-- Python truthiness of a JSON value (`bool(v)`). -/
def pyTruthy : JsonVal → Bool
  | .null => false
  | .bool b => b
  | .num n => n != 0
  | .str s => s ≠ ""
  | .arr xs => !xs.isEmpty
  | .obj fs => !fs.isEmpty

/-- Truthiness of an optional value (`d.get(k)` result): `None` is falsy. -/
def optTruthy : Option JsonVal → Bool
  | none => false
  | some v => pyTruthy v

mutual

/-- Python `repr` of a JSON value (containers render their elements with
`repr`; string escaping inside `repr` is not modelled — no claim nests
special characters). -/
def pyRepr : JsonVal → String
  | .null => "None"
  | .bool b => if b then "True" else "False"
  | .num n => toString n
  | .str s => "'" ++ s ++ "'"
  | .arr xs => "[" ++ pyReprList xs ++ "]"
  | .obj fs => "\x7b" ++ pyReprFields fs ++ "\x7d"

/-- Comma-separated `repr` of list elements. -/
def pyReprList : List JsonVal → String
  | [] => ""
  | [x] => pyRepr x
  | x :: xs => pyRepr x ++ ", " ++ pyReprList xs

/-- Comma-separated `repr` of dict entries. -/
def pyReprFields : List (String × JsonVal) → String
  | [] => ""
  | [(k, v)] => "'" ++ k ++ "': " ++ pyRepr v
  | (k, v) :: fs => "'" ++ k ++ "': " ++ pyRepr v ++ ", " ++ pyReprFields fs

end

/-- Python `str` of a JSON value, as interpolated by an f-string. -/
def pyStr : JsonVal → String
  | .str s => s
  | v => pyRepr v

/-- An HTTP response as the helpers see it: status code, the
`Retry-After` header when present, the decoded JSON body when `resp.json()`
succeeds (`none` models a body that is not valid JSON), and the raw text. -/
structure HttpResponse where
  status_code : Nat
  retryAfterHeader : Option String
  jsonBody : Option JsonVal
  text : String

/-- What the `try` block observes: a response, or one of the two caught
transport exceptions (`httpx.ConnectError`, `httpx.TimeoutException`) with its
message. -/
inductive RequestOutcome where
  | response (resp : HttpResponse)
  | connectError (e : String)
  | timeoutError (e : String)

/-- `resp.json().get("detail", resp.text)` guarded by `except Exception`:
the body's `detail` field rendered by `str`, or the raw text when the body is
not JSON, not a JSON object, or lacks the key. -/
def errorDetail (resp : HttpResponse) : String :=
  match resp.jsonBody with
  | some (.obj fields) =>
      match dictLookup fields "detail" with
      | some v => pyStr v
      | none => resp.text
  | _ => resp.text

/-- `_api_request` from src/server.py, lines 104-143, modelled from the point
the request outcome is known (method, path, headers and body do not affect the
returned value).  `Except.error` marks an exception that escapes the function:
only the two transport exceptions are caught, so `resp.json()` failing on a
non-error status propagates. -/
def _api_request (outcome : RequestOutcome) : Except String JsonVal :=
  match outcome with
  | .connectError e =>
      .ok (.obj [("error", .str s!"Connection failed: {e}. Check DISCOVERY_API_URL.")])
  | .timeoutError e =>
      .ok (.obj [("error", .str s!"Request timed out: {e}")])
  | .response resp =>
      if resp.status_code = 401 then
        .ok (.obj [("error", .str "Authentication failed. Check your API key or session token.")])
      else if resp.status_code = 402 then
        .ok (.obj [("error", .str "Payment required. Add a payment method first.")])
      else if resp.status_code = 429 then
        let retry := resp.retryAfterHeader.getD "60"
        .ok (.obj [("error", .str s!"Rate limited. Retry after {retry} seconds.")])
      else if resp.status_code ≥ 400 then
        .ok (.obj [("error", .str s!"API error ({resp.status_code}): {errorDetail resp}")])
      else
        match resp.jsonBody with
        | some v => .ok v
        | none => .error "JSONDecodeError"

/-- `_dashboard_request` from src/server.py, lines 146-188: identical response
handling to `_api_request`; only the connection-failure hint names the other
base-URL variable. -/
def _dashboard_request (outcome : RequestOutcome) : Except String JsonVal :=
  match outcome with
  | .connectError e =>
      .ok (.obj [("error", .str s!"Connection failed: {e}. Check DISCOVERY_DASHBOARD_URL.")])
  | .timeoutError e =>
      .ok (.obj [("error", .str s!"Request timed out: {e}")])
  | .response resp =>
      if resp.status_code = 401 then
        .ok (.obj [("error", .str "Authentication failed. Check your API key or session token.")])
      else if resp.status_code = 402 then
        .ok (.obj [("error", .str "Payment required. Add a payment method first.")])
      else if resp.status_code = 429 then
        let retry := resp.retryAfterHeader.getD "60"
        .ok (.obj [("error", .str s!"Rate limited. Retry after {retry} seconds.")])
      else if resp.status_code ≥ 400 then
        .ok (.obj [("error", .str s!"API error ({resp.status_code}): {errorDetail resp}")])
      else
        match resp.jsonBody with
        | some v => .ok v
        | none => .error "JSONDecodeError"

/-- The upload extension allowlist `_ALLOWED_EXTENSIONS` (a Python set,
kept here in source order; only membership and its sorted join are used). -/
def _ALLOWED_EXTENSIONS : List String :=
  [".csv", ".tsv", ".xlsx", ".xls", ".json", ".parquet", ".arff", ".feather"]

/-- `_MAX_FILE_SIZE_BYTES = 1024 * 1024 * 1024` (1 GiB). -/
def _MAX_FILE_SIZE_BYTES : Nat := 1024 * 1024 * 1024

/-- `_VALID_VISIBILITY = \x7b"public", "private"\x7d`. -/
def _VALID_VISIBILITY : List String := ["public", "private"]

/-- `_validate_visibility` from src/server.py, lines 92-96. -/
def _validate_visibility (visibility : String) : Option String :=
  if !(_VALID_VISIBILITY.contains visibility) then
    some s!"Invalid visibility '{visibility}'. Must be 'public' or 'private'."
  else
    none

/-- Lexicographic comparison of character lists, by code point, as Python
compares strings. -/
def charListLe : List Char → List Char → Bool
  | [], _ => true
  | _ :: _, [] => false
  | x :: xs, y :: ys => if x < y then true else if y < x then false else charListLe xs ys

/-- Python `a <= b` on strings. -/
def strLe (a b : String) : Bool := charListLe a.data b.data

/-- Insert a string into a sorted list (ascending lexicographic order). -/
def insertSorted (x : String) : List String → List String
  | [] => [x]
  | y :: ys => if strLe x y then x :: y :: ys else y :: insertSorted x ys

/-- Insertion sort on strings: Python `sorted` on a set of strings. -/
def sortStrings : List String → List String
  | [] => []
  | x :: xs => insertSorted x (sortStrings xs)

/-- `", ".join(sorted(_ALLOWED_EXTENSIONS))`. -/
def allowedJoined : String :=
  String.intercalate ", " (sortStrings _ALLOWED_EXTENSIONS)

/-- Python `s.rfind(c)` on a string: index of the last occurrence, `-1` when
absent. -/
def rfindAux (cs : List Char) (c : Char) (i : Int) (best : Int) : Int :=
  match cs with
  | [] => best
  | x :: rest => rfindAux rest c (i + 1) (if x = c then i else best)

/-- Python `s.rfind(c)`. -/
def pyRfind (s : String) (c : Char) : Int :=
  rfindAux s.data c 0 (-1)

/-- The extension part of `os.path.splitext(p)` (posixpath): the suffix from
the last dot after the last separator, provided at least one non-dot
character of the final component precedes that dot (so ".bashrc" has no
extension). -/
def splitextExt (p : String) : String :=
  let cs := p.data
  let sepIndex := pyRfind p '/'
  let dotIndex := pyRfind p '.'
  if dotIndex > sepIndex then
    let stem := (cs.drop (sepIndex + 1).toNat).take (dotIndex - sepIndex - 1).toNat
    if stem.any (fun c => c ≠ '.') then String.mk (cs.drop dotIndex.toNat) else ""
  else ""

/-- Python `ext.lower()`: characters lowered one by one (ASCII suffices for
every extension the program compares). -/
def pyLower (s : String) : String := String.mk (s.data.map Char.toLower)

/-- Python `os.path.basename(p)`: everything after the last separator. -/
def basename (p : String) : String :=
  String.mk (p.data.drop (pyRfind p '/' + 1).toNat)

/-- The filesystem as the validator queries it: `os.path.realpath`,
`os.path.exists`, `os.path.isfile`, `os.path.getsize`. -/
structure FileSys where
  realpath : String → String
  pathExists : String → Bool
  isfile : String → Bool
  getsize : String → Nat

/-- Python `f"\x7bbytes / 2**20:.1f\x7d"`, modelled as exact round-half-even
rounding of the rational `bytes / 2^20` to one decimal digit. -/
def fmtMB1 (bytes : Nat) : String :=
  let q := bytes * 10
  let d := 1048576
  let a := q / d
  let r := q % d
  let half := d / 2
  let t := if r > half then a + 1 else if r < half then a else if a % 2 = 0 then a else a + 1
  s!"{t / 10}.{t % 10}"

/-- Python `f"\x7bbytes / 2**20:.0f\x7d"`: round-half-even to a whole number
of megabytes. -/
def fmtMB0 (bytes : Nat) : String :=
  let d := 1048576
  let a := bytes / d
  let r := bytes % d
  let half := d / 2
  let t := if r > half then a + 1 else if r < half then a else if a % 2 = 0 then a else a + 1
  toString t

/-- `_validate_file_path` from src/server.py, lines 225-263: resolve the
path, then check existence, regular-file-ness, lowercase extension against
the allowlist, size ceiling, and emptiness, in that order, returning the
first failure's message or `none`. -/
def _validate_file_path (fs : FileSys) (file_path : String) : Option String :=
  let resolved := fs.realpath file_path
  if !(fs.pathExists resolved) then
    some s!"File not found: {file_path}"
  else if !(fs.isfile resolved) then
    some s!"Not a file: {file_path}"
  else
    let ext := pyLower (splitextExt resolved)
    if !(_ALLOWED_EXTENSIONS.contains ext) then
      some s!"Unsupported file type '{ext}'. Allowed: {allowedJoined}"
    else
      let file_size := fs.getsize resolved
      if file_size > _MAX_FILE_SIZE_BYTES then
        some s!"File too large ({fmtMB1 file_size} MB). Maximum: {fmtMB0 _MAX_FILE_SIZE_BYTES} MB."
      else if file_size = 0 then
        some "File is empty."
      else
        none

/-- `_build_result_hints` from src/server.py, lines 196-217.  `Except.error`
marks the `TypeError` Python would raise comparing a non-number
`hidden_deep_count` with `0`; booleans compare as 0/1 as in Python. -/
def _build_result_hints (data : PyDict) : Except String (List String) :=
  let hidden_deep := pyGetD data "hidden_deep_count" (.num 0)
  let hidden_deep_novel := pyGetD data "hidden_deep_novel_count" (.num 0)
  let hd : Except String Int :=
    match hidden_deep with
    | .num n => .ok n
    | .bool b => .ok (if b then 1 else 0)
    | _ => .error "TypeError: comparison not supported between instances"
  match hd with
  | .error e => .error e
  | .ok n =>
    let upsell : List String :=
      if n > 0 then
        let novel_part :=
          if pyTruthy hidden_deep_novel then s!", including {pyStr hidden_deep_novel} novel"
          else ""
        let plural := if n ≠ 1 then "s" else ""
        [s!"Deep analysis found {pyStr hidden_deep} more pattern{plural}{novel_part}. Upgrade to a paid plan to unlock them: https://disco.leap-labs.com/account"]
      else []
    let privacy : List String :=
      if pyTruthy (pyGetD data "is_public" (.bool true)) then
        ["This was a public run — results are visible in the public gallery. Use visibility='private' for confidential data."]
      else []
    .ok (upsell ++ privacy)

/-- `_resolve_api_key` from src/server.py, lines 69-71: Python
`api_key or _ENV_API_KEY` — the explicit argument when truthy (non-empty),
else the environment default. -/
def _resolve_api_key (api_key : Option String) (envKey : Option String) : Option String :=
  match api_key with
  | some k => if k ≠ "" then some k else envKey
  | none => envKey

/-- Python `not resolved_key` on an optional string: `None` and `""` are
falsy. -/
def pyStrFalsy : Option String → Bool
  | none => true
  | some v => v = ""

/-- The one network call of `discovery_estimate`, with the payload it sends. -/
inductive EstCall where
  | estimate (body : PyDict)

/-- The environment `discovery_estimate` runs in: the process-wide
`DISCOVERY_API_KEY` value and the normalized result `_api_request` returns for
the `/v1/estimate` POST. -/
structure EstimateEnv where
  env_api_key : Option String
  estimateResp : JsonVal

/-- `discovery_estimate` from src/server.py, lines 287-330, modelled up to
the final `json.dumps`: the returned mapping plus the backend calls made
(so that "rejected before the network call" is a provable statement). -/
def discovery_estimate (file_size_mb : Int) (num_columns : Int) (num_rows : Option Int)
    (depth_iterations : Int) (visibility : String) (api_key : Option String)
    (env : EstimateEnv) : JsonVal × List EstCall :=
  let resolved_key := _resolve_api_key api_key env.env_api_key
  if pyStrFalsy resolved_key then
    (.obj [("error", .str "API key required. Pass api_key or set DISCOVERY_API_KEY env var.")], [])
  else
    match _validate_visibility visibility with
    | some vis_err => (.obj [("error", .str vis_err)], [])
    | none =>
      let payload : PyDict :=
        [("file_size_mb", .num file_size_mb),
         ("num_columns", .num num_columns),
         ("depth_iterations", .num depth_iterations),
         ("visibility", .str visibility)]
        ++ (match num_rows with
            | some r => [("num_rows", JsonVal.num r)]
            | none => [])
      (env.estimateResp, [.estimate payload])

/-- The backend calls `discovery_analyze` can make, each with the payload it
sends: the presign POST, the raw PUT of the file bytes to the presigned URL,
the finalize POST, and the run-creation POST. -/
inductive OrchCall where
  | presign (body : PyDict)
  | transferUpload (uploadUrl : JsonVal) (contentType : String) (contentSize : Nat)
  | finalizeUpload (body : PyDict)
  | submit (body : PyDict)

/-- The caller-supplied arguments of `discovery_analyze`. -/
structure AnalyzeArgs where
  file_path : String
  target_column : String
  depth_iterations : Int
  visibility : String
  title : Option String
  description : Option String
  api_key : Option String

/-- The environment `discovery_analyze` runs in: the process-wide API key,
the filesystem, `mimetypes.guess_type`, and the responses of the four remote
steps (the presign and finalize dicts `_dashboard_request` returns, the PUT
status code, and the run-creation response). -/
structure AnalyzeEnv where
  env_api_key : Option String
  fs : FileSys
  guess_type : String → Option String
  presignResp : PyDict
  uploadStatus : Nat
  finalizeResp : PyDict
  submitResp : JsonVal

/-- The outcome of one `discovery_analyze` invocation: the returned mapping
(up to the final `json.dumps`), or `Except.error` for an uncaught Python
exception, together with the backend calls made in order. -/
structure AnalyzeOut where
  result : Except String JsonVal
  calls : List OrchCall

/-- The failure branch of the finalize step (src/server.py lines 433-436):
`errors = finalize.get("issues", \x7b\x7d).get("errors", [])`, then the first
entry's `message`, or the generic fallback when `errors` is falsy.
`Except.error` marks the exceptions Python would raise on shapes the code
does not expect. -/
def finalizeFailResult (finalize : PyDict) : Except String JsonVal :=
  match pyGetD finalize "issues" (.obj []) with
  | .obj issuesDict =>
      let errors := pyGetD issuesDict "errors" (.arr [])
      if pyTruthy errors then
        match errors with
        | .arr (first :: _) =>
            match first with
            | .obj firstDict => .ok (.obj [("error", pyGet firstDict "message")])
            | _ => .error "AttributeError: issue entry has no attribute get"
        | _ => .error "TypeError: errors value is not subscriptable"
      else
        .ok (.obj [("error", .str "Upload finalize failed")])
  | _ => .error "AttributeError: issues value has no attribute get"

/-- `if title: run_payload["title"] = title` — the entry appended to the run
payload: present exactly when the argument is a truthy (non-empty) string. -/
def titlePart : Option String → PyDict
  | some t => if t ≠ "" then [("title", JsonVal.str t)] else []
  | none => []

/-- `if description: run_payload["description"] = description`. -/
def descPart : Option String → PyDict
  | some d2 => if d2 ≠ "" then [("description", JsonVal.str d2)] else []
  | none => []

/-- The run-creation payload of step 4 (src/server.py lines 442-457), built
from the finalize response: `finalize["file"]` and its four fields are
mandatory subscripts (KeyError when absent), `columns` defaults to `[]`, and
`title`/`description` are added only when truthy. -/
def buildRunPayload (a : AnalyzeArgs) (finalize : PyDict) : Except String PyDict :=
  match dictLookup finalize "file" with
  | none => .error "KeyError: file"
  | some uploaded_file =>
    match uploaded_file with
    | .obj fileDict =>
      match dictLookup fileDict "key", dictLookup fileDict "name",
            dictLookup fileDict "size", dictLookup fileDict "fileHash" with
      | some fkey, some fname, some fsize, some fhash =>
        let columns := pyGetD finalize "columns" (.arr [])
        let base : PyDict :=
          [("file", .obj [("key", fkey), ("name", fname), ("size", fsize), ("fileHash", fhash)]),
           ("columns", columns),
           ("targetColumn", .str a.target_column),
           ("depthIterations", .num a.depth_iterations),
           ("isPublic", .bool (a.visibility = "public"))]
        .ok (base ++ titlePart a.title ++ descPart a.description)
      | _, _, _, _ => .error "KeyError: file descriptor field"
    | _ => .error "TypeError: file descriptor is not a mapping"

/-- Step 4 of `discovery_analyze` (src/server.py lines 441-465): build the
run-creation payload and POST it, returning the response verbatim; an
exception from the payload build propagates with the calls made so far. -/
def analyzeSubmitStep (a : AnalyzeArgs) (env : AnalyzeEnv) (calls3 : List OrchCall)
    (finalize : PyDict) : AnalyzeOut :=
  match buildRunPayload a finalize with
  | .error e => ⟨.error e, calls3⟩
  | .ok run_payload => ⟨.ok env.submitResp, calls3 ++ [OrchCall.submit run_payload]⟩

/-- Step 3 of `discovery_analyze` (src/server.py lines 423-439): POST
`\x7bkey, uploadToken\x7d` to finalize, abort on an error result or a falsy
`ok`, else continue to the submit step. -/
def analyzeFinalizeStep (a : AnalyzeArgs) (env : AnalyzeEnv) (calls2 : List OrchCall)
    (key upload_token : Option JsonVal) : AnalyzeOut :=
  let finalizeBody : PyDict :=
    [("key", key.getD .null), ("uploadToken", upload_token.getD .null)]
  let finalize := env.finalizeResp
  let calls3 := calls2 ++ [OrchCall.finalizeUpload finalizeBody]
  if hasKey finalize "error" then
    ⟨.ok (.obj finalize), calls3⟩
  else if !(pyTruthy (pyGet finalize "ok")) then
    ⟨finalizeFailResult finalize, calls3⟩
  else
    analyzeSubmitStep a env calls3 finalize

/-- Step 2 of `discovery_analyze` (src/server.py lines 412-421): PUT the file
bytes to the presigned URL; a status at or above 400 aborts with the status
code in the message, else the finalize step runs. -/
def analyzeTransferStep (a : AnalyzeArgs) (env : AnalyzeEnv) (calls1 : List OrchCall)
    (content_type : String) (file_size : Nat)
    (upload_url key upload_token : Option JsonVal) : AnalyzeOut :=
  let calls2 := calls1 ++
    [OrchCall.transferUpload (upload_url.getD .null) content_type file_size]
  if env.uploadStatus ≥ 400 then
    ⟨.ok (.obj [("error", .str s!"File upload failed: {env.uploadStatus}")]), calls2⟩
  else
    analyzeFinalizeStep a env calls2 key upload_token

/-- Step 1 of `discovery_analyze` (src/server.py lines 392-410): request a
presigned upload slot; pass an error result through, reject a response with
any falsy `uploadUrl`/`key`/`uploadToken`, else continue to the transfer
step. -/
def analyzePresignStep (a : AnalyzeArgs) (env : AnalyzeEnv) (file_name content_type : String)
    (file_size : Nat) : AnalyzeOut :=
  let presignBody : PyDict :=
    [("fileName", .str file_name), ("contentType", .str content_type),
     ("fileSize", .num file_size)]
  let presign := env.presignResp
  let calls1 := [OrchCall.presign presignBody]
  if hasKey presign "error" then
    ⟨.ok (.obj presign), calls1⟩
  else
    let upload_url := dictLookup presign "uploadUrl"
    let key := dictLookup presign "key"
    let upload_token := dictLookup presign "uploadToken"
    if !(optTruthy upload_url) || !(optTruthy key) || !(optTruthy upload_token) then
      ⟨.ok (.obj [("error", .str "Failed to get upload URL from API.")]), calls1⟩
    else
      analyzeTransferStep a env calls1 content_type file_size upload_url key upload_token

/-- `discovery_analyze` from src/server.py, lines 334-465, modelled up to the
final `json.dumps`: key resolution, visibility check, file validation, then
the presign / transfer / finalize / submit sequence (one function per source
step, each gated on the previous one), recording every backend call made. -/
def discovery_analyze (a : AnalyzeArgs) (env : AnalyzeEnv) : AnalyzeOut :=
  let resolved_key := _resolve_api_key a.api_key env.env_api_key
  if pyStrFalsy resolved_key then
    ⟨.ok (.obj [("error", .str "API key required. Pass api_key or set DISCOVERY_API_KEY env var.")]), []⟩
  else
    match _validate_visibility a.visibility with
    | some vis_err => ⟨.ok (.obj [("error", .str vis_err)]), []⟩
    | none =>
      match _validate_file_path env.fs a.file_path with
      | some file_err => ⟨.ok (.obj [("error", .str file_err)]), []⟩
      | none =>
        let resolved_path := env.fs.realpath a.file_path
        let file_name := basename resolved_path
        let content_type := (env.guess_type resolved_path).getD "text/csv"
        let file_size := env.fs.getsize resolved_path
        analyzePresignStep a env file_name content_type file_size

/-- A concrete filesystem exercising every branch of the safety gate:
a valid 2 MiB csv, a directory, a non-data file, a 2 GiB csv, an empty csv,
and a missing path. -/
def fsDemo : FileSys where
  realpath := fun p => p
  pathExists := fun p =>
    ["/data/train.csv", "/data/dir", "/data/tool.exe", "/data/huge.csv",
     "/data/empty.csv"].contains p
  isfile := fun p =>
    ["/data/train.csv", "/data/tool.exe", "/data/huge.csv", "/data/empty.csv"].contains p
  getsize := fun p =>
    if p = "/data/train.csv" then 2097152
    else if p = "/data/huge.csv" then 2147483648
    else if p = "/data/tool.exe" then 10
    else 0

/-- A well-formed presign response. -/
def presignDemo : PyDict :=
  [("uploadUrl", .str "https://upload.example/put"), ("key", .str "k-123"),
   ("uploadToken", .str "tok-456")]

/-- A well-formed finalize response. -/
def finalizeDemo : PyDict :=
  [("ok", .bool true),
   ("file", .obj [("key", .str "k-123"), ("name", .str "train.csv"),
                  ("size", .num 2097152), ("fileHash", .str "abc123")]),
   ("columns", .arr [.str "age", .str "revenue"])]

/-- The run-creation response of a successful submit step. -/
def submitRespDemo : JsonVal :=
  .obj [("run_id", .str "r_123"), ("status", .str "pending")]

/-- An environment in which every step of the analyze pipeline succeeds. -/
def envDemo : AnalyzeEnv where
  env_api_key := some "disco_env"
  fs := fsDemo
  guess_type := fun _ => some "text/csv"
  presignResp := presignDemo
  uploadStatus := 200
  finalizeResp := finalizeDemo
  submitResp := submitRespDemo

/-- Default arguments for a valid analyze call. -/
def argsDemo : AnalyzeArgs where
  file_path := "/data/train.csv"
  target_column := "revenue"
  depth_iterations := 1
  visibility := "public"
  title := none
  description := none
  api_key := some "disco_abc"

/-- `envDemo` with the presign step answering `p`. -/
def envWithPresign (p : PyDict) : AnalyzeEnv := { envDemo with presignResp := p }

/-- `envDemo` with the transfer PUT answering status `st`. -/
def envWithUploadStatus (st : Nat) : AnalyzeEnv := { envDemo with uploadStatus := st }

/-- `envDemo` with the finalize step answering `f`. -/
def envWithFinalize (f : PyDict) : AnalyzeEnv := { envDemo with finalizeResp := f }

/-- `argsDemo` with visibility `v`. -/
def argsWithVis (v : String) : AnalyzeArgs := { argsDemo with visibility := v }

/-- `argsDemo` with the optional title and description arguments. -/
def argsWithTD (t d2 : Option String) : AnalyzeArgs :=
  { argsDemo with title := t, description := d2 }

/-- The payloads of the submit calls in a call trace. -/
def submitBodies (calls : List OrchCall) : List PyDict :=
  calls.filterMap fun c =>
    match c with
    | .submit b => some b
    | _ => none

/-- C1: for every HTTP response received by either backend request helper,
the status-code-to-outcome mapping holds: 401 maps to the
authentication-failed message, 402 to the payment-required message, 429 to a
rate-limited message carrying the Retry-After header value or the default 60,
any other status at or above 400 to an API-error message carrying the status
code and the body's detail field when the body decodes to an object with one
(else the raw text), and every 2xx response returns the decoded JSON body
as-is. -/
theorem c1_status_code_outcome_mapping :
    (∀ resp : HttpResponse, resp.status_code = 401 →
      _api_request (.response resp) =
        .ok (.obj [("error", .str "Authentication failed. Check your API key or session token.")]) ∧
      _dashboard_request (.response resp) =
        .ok (.obj [("error", .str "Authentication failed. Check your API key or session token.")])) ∧
    (∀ resp : HttpResponse, resp.status_code = 402 →
      _api_request (.response resp) =
        .ok (.obj [("error", .str "Payment required. Add a payment method first.")]) ∧
      _dashboard_request (.response resp) =
        .ok (.obj [("error", .str "Payment required. Add a payment method first.")])) ∧
    (∀ (resp : HttpResponse) (ra : String), resp.status_code = 429 →
      resp.retryAfterHeader = some ra →
      _api_request (.response resp) =
        .ok (.obj [("error", .str s!"Rate limited. Retry after {ra} seconds.")]) ∧
      _dashboard_request (.response resp) =
        .ok (.obj [("error", .str s!"Rate limited. Retry after {ra} seconds.")])) ∧
    (∀ resp : HttpResponse, resp.status_code = 429 → resp.retryAfterHeader = none →
      _api_request (.response resp) =
        .ok (.obj [("error", .str "Rate limited. Retry after 60 seconds.")]) ∧
      _dashboard_request (.response resp) =
        .ok (.obj [("error", .str "Rate limited. Retry after 60 seconds.")])) ∧
    (∀ (resp : HttpResponse) (bd : PyDict) (dv : JsonVal), 400 ≤ resp.status_code →
      resp.status_code ≠ 401 → resp.status_code ≠ 402 → resp.status_code ≠ 429 →
      resp.jsonBody = some (.obj bd) → dictLookup bd "detail" = some dv →
      _api_request (.response resp) =
        .ok (.obj [("error", .str s!"API error ({resp.status_code}): {pyStr dv}")]) ∧
      _dashboard_request (.response resp) =
        .ok (.obj [("error", .str s!"API error ({resp.status_code}): {pyStr dv}")])) ∧
    (∀ resp : HttpResponse, 400 ≤ resp.status_code →
      resp.status_code ≠ 401 → resp.status_code ≠ 402 → resp.status_code ≠ 429 →
      resp.jsonBody = none →
      _api_request (.response resp) =
        .ok (.obj [("error", .str s!"API error ({resp.status_code}): {resp.text}")]) ∧
      _dashboard_request (.response resp) =
        .ok (.obj [("error", .str s!"API error ({resp.status_code}): {resp.text}")])) ∧
    (∀ (resp : HttpResponse) (v : JsonVal), 200 ≤ resp.status_code → resp.status_code < 300 →
      resp.jsonBody = some v →
      _api_request (.response resp) = .ok v ∧ _dashboard_request (.response resp) = .ok v) := by
  refine ⟨?_, ?_, ?_, ?_, ?_, ?_, ?_⟩
  · intro resp h
    exact ⟨by simp [_api_request, h], by simp [_dashboard_request, h]⟩
  · intro resp h
    exact ⟨by simp [_api_request, h], by simp [_dashboard_request, h]⟩
  · intro resp ra h hra
    exact ⟨by simp [_api_request, h, hra], by simp [_dashboard_request, h, hra]⟩
  · intro resp h hra
    constructor
    · simp only [_api_request, h, hra]
      rfl
    · simp only [_dashboard_request, h, hra]
      rfl
  · intro resp bd dv h4 h1 h2 h3 hb hd
    exact ⟨by simp [_api_request, h1, h2, h3, h4, errorDetail, hb, hd],
           by simp [_dashboard_request, h1, h2, h3, h4, errorDetail, hb, hd]⟩
  · intro resp h4 h1 h2 h3 hb
    exact ⟨by simp [_api_request, h1, h2, h3, h4, errorDetail, hb],
           by simp [_dashboard_request, h1, h2, h3, h4, errorDetail, hb]⟩
  · intro resp v hlo hhi hb
    have h1 : resp.status_code ≠ 401 := by omega
    have h2 : resp.status_code ≠ 402 := by omega
    have h3 : resp.status_code ≠ 429 := by omega
    have h4 : ¬(400 ≤ resp.status_code) := by omega
    exact ⟨by simp [_api_request, h1, h2, h3, h4, hb],
           by simp [_dashboard_request, h1, h2, h3, h4, hb]⟩

/-- C1 witness: the mapping instantiated at concrete responses for each
status family. -/
theorem c1_status_code_outcome_mapping_witness :
    _api_request (.response ⟨401, none, none, "t"⟩) =
      .ok (.obj [("error", .str "Authentication failed. Check your API key or session token.")]) ∧
    _api_request (.response ⟨429, some "17", none, "t"⟩) =
      .ok (.obj [("error", .str "Rate limited. Retry after 17 seconds.")]) ∧
    _dashboard_request (.response ⟨500, none, some (.obj [("detail", .str "boom")]), "t"⟩) =
      .ok (.obj [("error", .str "API error (500): boom")]) ∧
    _api_request (.response ⟨200, none, some (.obj [("ok", .bool true)]), "t"⟩) =
      .ok (.obj [("ok", .bool true)]) := by
  refine ⟨(c1_status_code_outcome_mapping.1 _ rfl).1,
          (c1_status_code_outcome_mapping.2.2.1 _ "17" rfl rfl).1,
          ?_, ?_⟩
  · have h := (c1_status_code_outcome_mapping.2.2.2.2.1 ⟨500, none,
      some (.obj [("detail", .str "boom")]), "t"⟩ [("detail", .str "boom")] (.str "boom")
      (by decide) (by decide) (by decide) (by decide) rfl rfl).2
    exact h
  · exact (c1_status_code_outcome_mapping.2.2.2.2.2.2 ⟨200, none,
      some (.obj [("ok", .bool true)]), "t"⟩ (.obj [("ok", .bool true)])
      (by decide) (by decide) rfl).1

/-- C10: a 2xx response whose body is not valid JSON makes both request
helpers raise (the JSON-decode failure propagates); only the two transport
exceptions are caught and normalized into error mappings. -/
theorem c10_nonjson_2xx_raises :
    _api_request (.response ⟨200, none, none, "<html>"⟩) = .error "JSONDecodeError" ∧
    _dashboard_request (.response ⟨200, none, none, "<html>"⟩) = .error "JSONDecodeError" ∧
    (∀ e : String, _api_request (.connectError e) =
      .ok (.obj [("error", .str s!"Connection failed: {e}. Check DISCOVERY_API_URL.")])) ∧
    (∀ e : String, _api_request (.timeoutError e) =
      .ok (.obj [("error", .str s!"Request timed out: {e}")])) ∧
    (∀ e : String, _dashboard_request (.connectError e) =
      .ok (.obj [("error", .str s!"Connection failed: {e}. Check DISCOVERY_DASHBOARD_URL.")])) ∧
    (∀ e : String, _dashboard_request (.timeoutError e) =
      .ok (.obj [("error", .str s!"Request timed out: {e}")])) :=
  ⟨rfl, rfl, fun _ => rfl, fun _ => rfl, fun _ => rfl, fun _ => rfl⟩

/-- C2 counterexample: a successful 2xx call can produce a mapping that
downstream consumers treat as a failure — a 200 response whose decoded
payload itself contains an "error" key is returned as-is by the request
helper, and the orchestrator's error check then aborts the pipeline after
the presign call, returning that payload as the failure result. -/
theorem c2_ambiguous_success_counterexample :
    _dashboard_request (.response ⟨200, none, some (.obj [("error", .str "boom")]), "t"⟩) =
      .ok (.obj [("error", .str "boom")]) ∧
    hasKey [("error", JsonVal.str "boom")] "error" = true ∧
    (discovery_analyze argsDemo (envWithPresign [("error", .str "boom")])).result =
      .ok (.obj [("error", .str "boom")]) ∧
    (discovery_analyze argsDemo (envWithPresign [("error", .str "boom")])).calls.length = 1 :=
  ⟨rfl, rfl, rfl, rfl⟩

/-- C2 (amended): the normalized result is unambiguous except for backend
payloads that themselves carry an "error" key — transport failures and every
status at or above 400 yield a mapping containing "error", and a 2xx response
whose body decodes to an object is passed through unmodified, so its result
contains "error" exactly when the backend payload already did. -/
theorem c2_error_key_unambiguous_amended :
    (∀ e : String,
      (∃ d, _api_request (.connectError e) = .ok (.obj d) ∧ hasKey d "error" = true) ∧
      (∃ d, _api_request (.timeoutError e) = .ok (.obj d) ∧ hasKey d "error" = true) ∧
      (∃ d, _dashboard_request (.connectError e) = .ok (.obj d) ∧ hasKey d "error" = true) ∧
      (∃ d, _dashboard_request (.timeoutError e) = .ok (.obj d) ∧ hasKey d "error" = true)) ∧
    (∀ resp : HttpResponse, 400 ≤ resp.status_code →
      (∃ d, _api_request (.response resp) = .ok (.obj d) ∧ hasKey d "error" = true) ∧
      (∃ d, _dashboard_request (.response resp) = .ok (.obj d) ∧ hasKey d "error" = true)) ∧
    (∀ (resp : HttpResponse) (bd : PyDict), 200 ≤ resp.status_code → resp.status_code < 300 →
      resp.jsonBody = some (.obj bd) →
      _api_request (.response resp) = .ok (.obj bd) ∧
      _dashboard_request (.response resp) = .ok (.obj bd)) := by
  refine ⟨?_, ?_, ?_⟩
  · intro e
    exact ⟨⟨_, rfl, rfl⟩, ⟨_, rfl, rfl⟩, ⟨_, rfl, rfl⟩, ⟨_, rfl, rfl⟩⟩
  · intro resp h4
    by_cases h1 : resp.status_code = 401
    · refine ⟨⟨[("error", .str "Authentication failed. Check your API key or session token.")],
        by simp [_api_request, h1], rfl⟩,
        ⟨[("error", .str "Authentication failed. Check your API key or session token.")],
        by simp [_dashboard_request, h1], rfl⟩⟩
    by_cases h2 : resp.status_code = 402
    · refine ⟨⟨[("error", .str "Payment required. Add a payment method first.")],
        by simp [_api_request, h1, h2], rfl⟩,
        ⟨[("error", .str "Payment required. Add a payment method first.")],
        by simp [_dashboard_request, h1, h2], rfl⟩⟩
    by_cases h3 : resp.status_code = 429
    · cases hra : resp.retryAfterHeader with
      | some ra =>
        refine ⟨⟨[("error", .str s!"Rate limited. Retry after {ra} seconds.")],
          by simp [_api_request, h1, h2, h3, hra], rfl⟩,
          ⟨[("error", .str s!"Rate limited. Retry after {ra} seconds.")],
          by simp [_dashboard_request, h1, h2, h3, hra], rfl⟩⟩
      | none =>
        refine ⟨⟨[("error", .str "Rate limited. Retry after 60 seconds.")], ?_, rfl⟩,
          ⟨[("error", .str "Rate limited. Retry after 60 seconds.")], ?_, rfl⟩⟩
        · simp only [_api_request, h1, h2, h3, hra, if_true, if_neg]
          rfl
        · simp only [_dashboard_request, h1, h2, h3, hra, if_true, if_neg]
          rfl
    · refine ⟨⟨[("error", .str s!"API error ({resp.status_code}): {errorDetail resp}")],
        by simp [_api_request, h1, h2, h3, h4], rfl⟩,
        ⟨[("error", .str s!"API error ({resp.status_code}): {errorDetail resp}")],
        by simp [_dashboard_request, h1, h2, h3, h4], rfl⟩⟩
  · intro resp bd hlo hhi hb
    have h1 : resp.status_code ≠ 401 := by omega
    have h2 : resp.status_code ≠ 402 := by omega
    have h3 : resp.status_code ≠ 429 := by omega
    have h4 : ¬(400 ≤ resp.status_code) := by omega
    exact ⟨by simp [_api_request, h1, h2, h3, h4, hb],
           by simp [_dashboard_request, h1, h2, h3, h4, hb]⟩

/-- C2 witness: the amended statement instantiated at a 404 response and at a
200 response with a clean object body. -/
theorem c2_error_key_unambiguous_amended_witness :
    (∃ d, _api_request (.response ⟨404, none, none, "missing"⟩) = .ok (.obj d) ∧
      hasKey d "error" = true) ∧
    _api_request (.response ⟨200, none, some (.obj [("plan", .str "free")]), "t"⟩) =
      .ok (.obj [("plan", .str "free")]) := by
  refine ⟨(c2_error_key_unambiguous_amended.2.1 ⟨404, none, none, "missing"⟩ (by decide)).1, ?_⟩
  exact (c2_error_key_unambiguous_amended.2.2 ⟨200, none, some (.obj [("plan", .str "free")]), "t"⟩
    [("plan", .str "free")] (by decide) (by decide) rfl).1

/-- C3 counterexample: the too-large rejection does not report the maximum
size with one decimal place — a 2 GiB file's message reads
"Maximum: 1024 MB.", not "Maximum: 1024.0 MB.". -/
theorem c3_max_without_decimal_counterexample :
    _validate_file_path fsDemo "/data/huge.csv" =
      some "File too large (2048.0 MB). Maximum: 1024 MB." ∧
    "File too large (2048.0 MB). Maximum: 1024 MB." ≠
      "File too large (2048.0 MB). Maximum: 1024.0 MB." :=
  ⟨rfl, by decide⟩

/-- C3 (amended): the safety gate checks the resolved path in the fixed
order — existence, regular file, lowercase extension against the allowlist,
the 1 GiB size ceiling (actual size in MB with one decimal place, the
maximum as the whole number 1024), emptiness — short-circuiting on the first
failure with a distinguishable message, and an allowed non-empty file under
the ceiling passes silently. -/
theorem c3_file_safety_gate_amended :
    (∀ (fs : FileSys) (p : String), fs.pathExists (fs.realpath p) = false →
      _validate_file_path fs p = some s!"File not found: {p}") ∧
    (∀ (fs : FileSys) (p : String), fs.pathExists (fs.realpath p) = true →
      fs.isfile (fs.realpath p) = false →
      _validate_file_path fs p = some s!"Not a file: {p}") ∧
    (∀ (fs : FileSys) (p : String), fs.pathExists (fs.realpath p) = true →
      fs.isfile (fs.realpath p) = true →
      _ALLOWED_EXTENSIONS.contains (pyLower (splitextExt (fs.realpath p))) = false →
      _validate_file_path fs p =
        some s!"Unsupported file type '{pyLower (splitextExt (fs.realpath p))}'. Allowed: {allowedJoined}") ∧
    (∀ (fs : FileSys) (p : String), fs.pathExists (fs.realpath p) = true →
      fs.isfile (fs.realpath p) = true →
      _ALLOWED_EXTENSIONS.contains (pyLower (splitextExt (fs.realpath p))) = true →
      _MAX_FILE_SIZE_BYTES < fs.getsize (fs.realpath p) →
      _validate_file_path fs p =
        some s!"File too large ({fmtMB1 (fs.getsize (fs.realpath p))} MB). Maximum: {fmtMB0 _MAX_FILE_SIZE_BYTES} MB.") ∧
    fmtMB0 _MAX_FILE_SIZE_BYTES = "1024" ∧
    (∀ (fs : FileSys) (p : String), fs.pathExists (fs.realpath p) = true →
      fs.isfile (fs.realpath p) = true →
      _ALLOWED_EXTENSIONS.contains (pyLower (splitextExt (fs.realpath p))) = true →
      fs.getsize (fs.realpath p) = 0 →
      _validate_file_path fs p = some "File is empty.") ∧
    (∀ (fs : FileSys) (p : String), fs.pathExists (fs.realpath p) = true →
      fs.isfile (fs.realpath p) = true →
      _ALLOWED_EXTENSIONS.contains (pyLower (splitextExt (fs.realpath p))) = true →
      0 < fs.getsize (fs.realpath p) →
      fs.getsize (fs.realpath p) ≤ _MAX_FILE_SIZE_BYTES →
      _validate_file_path fs p = none) ∧
    ([ "File not found: /data/missing.csv",
       "Not a file: /data/dir",
       "Unsupported file type '.exe'. Allowed: .arff, .csv, .feather, .json, .parquet, .tsv, .xls, .xlsx",
       "File too large (2048.0 MB). Maximum: 1024 MB.",
       "File is empty."] : List String).Pairwise (· ≠ ·) := by
  refine ⟨?_, ?_, ?_, ?_, rfl, ?_, ?_, ?_⟩
  · intro fs p h
    simp [_validate_file_path, h]
  · intro fs p h1 h2
    simp [_validate_file_path, h1, h2]
  · intro fs p h1 h2 h3
    have hm : pyLower (splitextExt (fs.realpath p)) ∉ _ALLOWED_EXTENSIONS := by simpa using h3
    simp [_validate_file_path, h1, h2, hm]
  · intro fs p h1 h2 h3 h4
    have hm : pyLower (splitextExt (fs.realpath p)) ∈ _ALLOWED_EXTENSIONS := by simpa using h3
    simp [_validate_file_path, h1, h2, hm, h4]
  · intro fs p h1 h2 h3 hsz
    have hm : pyLower (splitextExt (fs.realpath p)) ∈ _ALLOWED_EXTENSIONS := by simpa using h3
    simp [_validate_file_path, h1, h2, hm, hsz, _MAX_FILE_SIZE_BYTES]
  · intro fs p h1 h2 h3 hpos hle
    have hm : pyLower (splitextExt (fs.realpath p)) ∈ _ALLOWED_EXTENSIONS := by simpa using h3
    have h4 : ¬(_MAX_FILE_SIZE_BYTES < fs.getsize (fs.realpath p)) := not_lt.mpr hle
    have h5 : fs.getsize (fs.realpath p) ≠ 0 := Nat.pos_iff_ne_zero.mp hpos
    simp [_validate_file_path, h1, h2, hm, h4, h5]
  · decide

/-- C3 witness: each branch of the amended gate exercised on a concrete
filesystem. -/
theorem c3_file_safety_gate_amended_witness :
    _validate_file_path fsDemo "/data/missing.csv" = some "File not found: /data/missing.csv" ∧
    _validate_file_path fsDemo "/data/dir" = some "Not a file: /data/dir" ∧
    _validate_file_path fsDemo "/data/tool.exe" =
      some "Unsupported file type '.exe'. Allowed: .arff, .csv, .feather, .json, .parquet, .tsv, .xls, .xlsx" ∧
    _validate_file_path fsDemo "/data/huge.csv" =
      some "File too large (2048.0 MB). Maximum: 1024 MB." ∧
    _validate_file_path fsDemo "/data/empty.csv" = some "File is empty." ∧
    _validate_file_path fsDemo "/data/train.csv" = none := by
  refine ⟨c3_file_safety_gate_amended.1 fsDemo "/data/missing.csv" rfl,
    c3_file_safety_gate_amended.2.1 fsDemo "/data/dir" rfl rfl,
    c3_file_safety_gate_amended.2.2.1 fsDemo "/data/tool.exe" rfl rfl rfl,
    c3_file_safety_gate_amended.2.2.2.1 fsDemo "/data/huge.csv" rfl rfl rfl (by decide),
    c3_file_safety_gate_amended.2.2.2.2.2.1 fsDemo "/data/empty.csv" rfl rfl rfl rfl,
    c3_file_safety_gate_amended.2.2.2.2.2.2.1 fsDemo "/data/train.csv" rfl rfl rfl
      (by decide) (by decide)⟩

/-- The presign payload the demo arguments produce. -/
def presignBodyDemo : PyDict :=
  [("fileName", .str "train.csv"), ("contentType", .str "text/csv"), ("fileSize", .num 2097152)]

/-- The run-creation payload the demo arguments and demo finalize response
produce, before the optional title and description entries. -/
def runPayloadDemo : PyDict :=
  [("file", .obj [("key", .str "k-123"), ("name", .str "train.csv"),
                  ("size", .num 2097152), ("fileHash", .str "abc123")]),
   ("columns", .arr [.str "age", .str "revenue"]),
   ("targetColumn", .str "revenue"),
   ("depthIterations", .num 1),
   ("isPublic", .bool true)]

/-- When the key, visibility and file checks pass, `discovery_analyze` is the
presign step applied to the derived file name, content type and size. -/
theorem analyze_front_ok (a : AnalyzeArgs) (env : AnalyzeEnv)
    (hkey : pyStrFalsy (_resolve_api_key a.api_key env.env_api_key) = false)
    (hvis : _validate_visibility a.visibility = none)
    (hfile : _validate_file_path env.fs a.file_path = none) :
    discovery_analyze a env =
      analyzePresignStep a env (basename (env.fs.realpath a.file_path))
        ((env.guess_type (env.fs.realpath a.file_path)).getD "text/csv")
        (env.fs.getsize (env.fs.realpath a.file_path)) := by
  simp only [discovery_analyze, hkey, hvis, hfile, Bool.false_eq_true, if_false]

/-- C4: a presign response without an "error" key whose `uploadUrl`, `key` or
`uploadToken` is missing or falsy makes the orchestrator return the local
"Failed to get upload URL from API." error with only the presign call made —
no transfer and no subsequent step — both in general and end-to-end on the
demo pipeline with a token-less presign response. -/
theorem c4_presign_missing_field_aborts :
    (∀ (a : AnalyzeArgs) (env : AnalyzeEnv) (fname ctype : String) (fsize : Nat),
      hasKey env.presignResp "error" = false →
      (!(optTruthy (dictLookup env.presignResp "uploadUrl")) ||
       !(optTruthy (dictLookup env.presignResp "key")) ||
       !(optTruthy (dictLookup env.presignResp "uploadToken"))) = true →
      analyzePresignStep a env fname ctype fsize =
        ⟨.ok (.obj [("error", .str "Failed to get upload URL from API.")]),
         [.presign [("fileName", .str fname), ("contentType", .str ctype),
                    ("fileSize", .num fsize)]]⟩) ∧
    discovery_analyze argsDemo
        (envWithPresign [("uploadUrl", .str "https://u"), ("key", .str "k-1")]) =
      ⟨.ok (.obj [("error", .str "Failed to get upload URL from API.")]),
       [.presign presignBodyDemo]⟩ := by
  constructor
  · intro a env fname ctype fsize hne hmiss
    simp only [analyzePresignStep, hne, hmiss, Bool.false_eq_true, if_false, if_true]
  · rfl

/-- C4 witness: the general statement applied to the demo environment with a
presign response whose `uploadToken` is missing and one whose `uploadUrl` is
the empty string. -/
theorem c4_presign_missing_field_aborts_witness :
    analyzePresignStep argsDemo
        (envWithPresign [("uploadUrl", .str "https://u"), ("key", .str "k-1")])
        "train.csv" "text/csv" 2097152 =
      ⟨.ok (.obj [("error", .str "Failed to get upload URL from API.")]),
       [.presign presignBodyDemo]⟩ ∧
    analyzePresignStep argsDemo
        (envWithPresign [("uploadUrl", .str ""), ("key", .str "k-1"),
                         ("uploadToken", .str "tok")])
        "train.csv" "text/csv" 2097152 =
      ⟨.ok (.obj [("error", .str "Failed to get upload URL from API.")]),
       [.presign presignBodyDemo]⟩ :=
  ⟨c4_presign_missing_field_aborts.1 argsDemo
      (envWithPresign [("uploadUrl", .str "https://u"), ("key", .str "k-1")])
      "train.csv" "text/csv" 2097152 rfl rfl,
   c4_presign_missing_field_aborts.1 argsDemo
      (envWithPresign [("uploadUrl", .str ""), ("key", .str "k-1"),
                       ("uploadToken", .str "tok")])
      "train.csv" "text/csv" 2097152 rfl rfl⟩

/-- C5 counterexample: a non-2xx transfer status below 400 is not fatal — a
301 response to the PUT lets the pipeline continue through finalize and
submit and succeed. -/
theorem c5_redirect_not_fatal_counterexample :
    (discovery_analyze argsDemo (envWithUploadStatus 301)).result = .ok submitRespDemo ∧
    (discovery_analyze argsDemo (envWithUploadStatus 301)).calls =
      [.presign presignBodyDemo,
       .transferUpload (.str "https://upload.example/put") "text/csv" 2097152,
       .finalizeUpload [("key", .str "k-123"), ("uploadToken", .str "tok-456")],
       .submit runPayloadDemo] :=
  ⟨rfl, rfl⟩

/-- C5 (amended): a transfer PUT status at or above 400 is a fatal error
whose message reports the status code, aborting finalize and submit; a
status below 400 (2xx or 3xx alike) is treated as success and the pipeline
continues. -/
theorem c5_transfer_status_fatal_amended :
    (∀ (a : AnalyzeArgs) (env : AnalyzeEnv) (calls1 : List OrchCall) (ctype : String)
       (fsize : Nat) (url key tok : Option JsonVal), 400 ≤ env.uploadStatus →
      analyzeTransferStep a env calls1 ctype fsize url key tok =
        ⟨.ok (.obj [("error", .str s!"File upload failed: {env.uploadStatus}")]),
         calls1 ++ [.transferUpload (url.getD .null) ctype fsize]⟩) ∧
    (∀ (a : AnalyzeArgs) (env : AnalyzeEnv) (calls1 : List OrchCall) (ctype : String)
       (fsize : Nat) (url key tok : Option JsonVal), env.uploadStatus < 400 →
      analyzeTransferStep a env calls1 ctype fsize url key tok =
        analyzeFinalizeStep a env
          (calls1 ++ [.transferUpload (url.getD .null) ctype fsize]) key tok) ∧
    discovery_analyze argsDemo (envWithUploadStatus 503) =
      ⟨.ok (.obj [("error", .str "File upload failed: 503")]),
       [.presign presignBodyDemo,
        .transferUpload (.str "https://upload.example/put") "text/csv" 2097152]⟩ := by
  refine ⟨?_, ?_, rfl⟩
  · intro a env calls1 ctype fsize url key tok h
    simp only [analyzeTransferStep, ge_iff_le, h, if_true]
  · intro a env calls1 ctype fsize url key tok h
    have h2 : ¬(400 ≤ env.uploadStatus) := Nat.not_le.mpr h
    simp only [analyzeTransferStep, ge_iff_le, h2, if_false]

/-- C5 witness: the amended statement applied at status 503 (fatal) and
status 204 (success, continues to finalize). -/
theorem c5_transfer_status_fatal_amended_witness :
    analyzeTransferStep argsDemo (envWithUploadStatus 503) [] "text/csv" 1
        (some (.str "u")) (some (.str "k")) (some (.str "t")) =
      ⟨.ok (.obj [("error", .str "File upload failed: 503")]),
       [.transferUpload (.str "u") "text/csv" 1]⟩ ∧
    analyzeTransferStep argsDemo (envWithUploadStatus 204) [] "text/csv" 1
        (some (.str "u")) (some (.str "k")) (some (.str "t")) =
      analyzeFinalizeStep argsDemo (envWithUploadStatus 204)
        [.transferUpload (.str "u") "text/csv" 1] (some (.str "k")) (some (.str "t")) :=
  ⟨c5_transfer_status_fatal_amended.1 argsDemo (envWithUploadStatus 503) [] "text/csv" 1
      (some (.str "u")) (some (.str "k")) (some (.str "t")) (by decide),
   c5_transfer_status_fatal_amended.2.1 argsDemo (envWithUploadStatus 204) [] "text/csv" 1
      (some (.str "u")) (some (.str "k")) (some (.str "t")) (by decide)⟩

/-- C6: when finalize answers without an "error" key but with a falsy `ok`,
the orchestrator surfaces the `message` of the first entry of
`issues.errors` as the error, falls back to the generic
"Upload finalize failed" when `issues` is absent or `errors` is empty, and
in particular `issues.errors: [\x7bmessage: "bad header"\x7d]` yields exactly
"bad header" end-to-end. -/
theorem c6_finalize_failure_message :
    (∀ (a : AnalyzeArgs) (env : AnalyzeEnv) (calls2 : List OrchCall)
       (key tok : Option JsonVal) (idict ed : PyDict) (rest : List JsonVal) (m : JsonVal),
      hasKey env.finalizeResp "error" = false →
      pyTruthy (pyGet env.finalizeResp "ok") = false →
      dictLookup env.finalizeResp "issues" = some (.obj idict) →
      dictLookup idict "errors" = some (.arr (.obj ed :: rest)) →
      dictLookup ed "message" = some m →
      analyzeFinalizeStep a env calls2 key tok =
        ⟨.ok (.obj [("error", m)]),
         calls2 ++ [.finalizeUpload [("key", key.getD .null),
                                     ("uploadToken", tok.getD .null)]]⟩) ∧
    (∀ (a : AnalyzeArgs) (env : AnalyzeEnv) (calls2 : List OrchCall)
       (key tok : Option JsonVal),
      hasKey env.finalizeResp "error" = false →
      pyTruthy (pyGet env.finalizeResp "ok") = false →
      dictLookup env.finalizeResp "issues" = none →
      analyzeFinalizeStep a env calls2 key tok =
        ⟨.ok (.obj [("error", .str "Upload finalize failed")]),
         calls2 ++ [.finalizeUpload [("key", key.getD .null),
                                     ("uploadToken", tok.getD .null)]]⟩) ∧
    (∀ (a : AnalyzeArgs) (env : AnalyzeEnv) (calls2 : List OrchCall)
       (key tok : Option JsonVal) (idict : PyDict),
      hasKey env.finalizeResp "error" = false →
      pyTruthy (pyGet env.finalizeResp "ok") = false →
      dictLookup env.finalizeResp "issues" = some (.obj idict) →
      dictLookup idict "errors" = some (.arr []) →
      analyzeFinalizeStep a env calls2 key tok =
        ⟨.ok (.obj [("error", .str "Upload finalize failed")]),
         calls2 ++ [.finalizeUpload [("key", key.getD .null),
                                     ("uploadToken", tok.getD .null)]]⟩) ∧
    discovery_analyze argsDemo
        (envWithFinalize [("ok", .bool false),
          ("issues", .obj [("errors", .arr [.obj [("message", .str "bad header")]])])]) =
      ⟨.ok (.obj [("error", .str "bad header")]),
       [.presign presignBodyDemo,
        .transferUpload (.str "https://upload.example/put") "text/csv" 2097152,
        .finalizeUpload [("key", .str "k-123"), ("uploadToken", .str "tok-456")]]⟩ := by
  refine ⟨?_, ?_, ?_, rfl⟩
  · intro a env calls2 key tok idict ed rest m hne hok hiss herr hmsg
    simp only [analyzeFinalizeStep, hne, hok, Bool.false_eq_true, if_false, Bool.not_false,
      if_true]
    simp only [finalizeFailResult, pyGetD, pyGet, hiss, Option.getD_some, herr, pyTruthy,
      List.isEmpty_cons, Bool.not_false, if_true, hmsg]
  · intro a env calls2 key tok hne hok hiss
    simp only [analyzeFinalizeStep, hne, hok, Bool.false_eq_true, if_false, Bool.not_false,
      if_true]
    simp only [finalizeFailResult, pyGetD, pyGet, hiss, Option.getD_none, Option.getD_some,
      dictLookup, pyTruthy, List.isEmpty_nil, Bool.not_true, Bool.false_eq_true, if_false]
  · intro a env calls2 key tok idict hne hok hiss herr
    simp only [analyzeFinalizeStep, hne, hok, Bool.false_eq_true, if_false, Bool.not_false,
      if_true]
    simp only [finalizeFailResult, pyGetD, pyGet, hiss, Option.getD_some, herr, pyTruthy,
      List.isEmpty_nil, Bool.not_true, Bool.false_eq_true, if_false]

/-- C6 witness: the three branches instantiated at concrete finalize
responses. -/
theorem c6_finalize_failure_message_witness :
    analyzeFinalizeStep argsDemo
        (envWithFinalize [("ok", .bool false),
          ("issues", .obj [("errors", .arr [.obj [("message", .str "bad header")]])])])
        [] (some (.str "k")) (some (.str "t")) =
      ⟨.ok (.obj [("error", .str "bad header")]),
       [.finalizeUpload [("key", .str "k"), ("uploadToken", .str "t")]]⟩ ∧
    analyzeFinalizeStep argsDemo (envWithFinalize [("ok", .bool false)])
        [] (some (.str "k")) (some (.str "t")) =
      ⟨.ok (.obj [("error", .str "Upload finalize failed")]),
       [.finalizeUpload [("key", .str "k"), ("uploadToken", .str "t")]]⟩ ∧
    analyzeFinalizeStep argsDemo
        (envWithFinalize [("ok", .bool false), ("issues", .obj [("errors", .arr [])])])
        [] (some (.str "k")) (some (.str "t")) =
      ⟨.ok (.obj [("error", .str "Upload finalize failed")]),
       [.finalizeUpload [("key", .str "k"), ("uploadToken", .str "t")]]⟩ :=
  ⟨c6_finalize_failure_message.1 argsDemo
      (envWithFinalize [("ok", .bool false),
        ("issues", .obj [("errors", .arr [.obj [("message", .str "bad header")]])])])
      [] (some (.str "k")) (some (.str "t"))
      [("errors", .arr [.obj [("message", .str "bad header")]])]
      [("message", .str "bad header")] [] (.str "bad header") rfl rfl rfl rfl rfl,
   c6_finalize_failure_message.2.1 argsDemo (envWithFinalize [("ok", .bool false)])
      [] (some (.str "k")) (some (.str "t")) rfl rfl rfl,
   c6_finalize_failure_message.2.2.1 argsDemo
      (envWithFinalize [("ok", .bool false), ("issues", .obj [("errors", .arr [])])])
      [] (some (.str "k")) (some (.str "t")) [("errors", .arr [])] rfl rfl rfl rfl⟩

/-- Key lookup distributes over dict concatenation. -/
theorem hasKey_append (d1 d2 : PyDict) (k : String) :
    hasKey (d1 ++ d2) k = (hasKey d1 k || hasKey d2 k) := by
  induction d1 with
  | nil => simp [hasKey, dictLookup]
  | cons hd tl ih =>
    obtain ⟨k2, v⟩ := hd
    by_cases h : k2 = k
    · simp [hasKey, dictLookup, h]
    · simpa [hasKey, dictLookup, h] using ih

/-- The title entry is present exactly for a non-empty supplied title. -/
theorem titlePart_hasKey (t : Option String) :
    hasKey (titlePart t) "title" = true ↔ ∃ s, t = some s ∧ s ≠ "" := by
  cases t with
  | none => simp [titlePart, hasKey, dictLookup]
  | some s =>
    by_cases h : s = ""
    · subst h
      simp [titlePart, hasKey, dictLookup]
    · simp [titlePart, hasKey, dictLookup, h]

/-- The description entry is present exactly for a non-empty supplied
description. -/
theorem descPart_hasKey (d2 : Option String) :
    hasKey (descPart d2) "description" = true ↔ ∃ s, d2 = some s ∧ s ≠ "" := by
  cases d2 with
  | none => simp [descPart, hasKey, dictLookup]
  | some s =>
    by_cases h : s = ""
    · subst h
      simp [descPart, hasKey, dictLookup]
    · simp [descPart, hasKey, dictLookup, h]

/-- The title entry never carries a description key. -/
theorem titlePart_no_description (t : Option String) :
    hasKey (titlePart t) "description" = false := by
  cases t with
  | none => rfl
  | some s =>
    by_cases h : s = ""
    · simp [titlePart, hasKey, dictLookup, h]
    · simp [titlePart, hasKey, dictLookup, h]

/-- The description entry never carries a title key. -/
theorem descPart_no_title (d2 : Option String) :
    hasKey (descPart d2) "title" = false := by
  cases d2 with
  | none => rfl
  | some s =>
    by_cases h : s = ""
    · simp [descPart, hasKey, dictLookup, h]
    · simp [descPart, hasKey, dictLookup, h]

/-- C7 counterexample: a caller-supplied empty-string title is dropped from
the run-creation payload — the workflow succeeds, the one submit payload is
the demo payload, and it has no "title" key even though the caller supplied
the title argument. -/
theorem c7_empty_title_omitted_counterexample :
    (discovery_analyze (argsWithTD (some "") none) envDemo).result = .ok submitRespDemo ∧
    submitBodies (discovery_analyze (argsWithTD (some "") none) envDemo).calls =
      [runPayloadDemo] ∧
    hasKey runPayloadDemo "title" = false :=
  ⟨rfl, rfl, rfl⟩

/-- C7 (amended): the run-creation payload carries `title`/`description`
exactly when the caller supplied a non-empty string for it (Python
truthiness drops an empty string like an absent argument), and the submit
response is returned verbatim as the overall result. -/
theorem c7_title_description_truthiness_amended :
    (∀ (a : AnalyzeArgs) (f fd : PyDict) (fkey fname2 fsize2 fhash : JsonVal) (rp : PyDict),
      dictLookup f "file" = some (.obj fd) →
      dictLookup fd "key" = some fkey → dictLookup fd "name" = some fname2 →
      dictLookup fd "size" = some fsize2 → dictLookup fd "fileHash" = some fhash →
      buildRunPayload a f = .ok rp →
      (hasKey rp "title" = true ↔ ∃ s, a.title = some s ∧ s ≠ "") ∧
      (hasKey rp "description" = true ↔ ∃ s, a.description = some s ∧ s ≠ "")) ∧
    (∀ (a : AnalyzeArgs) (env : AnalyzeEnv) (calls3 : List OrchCall) (f rp : PyDict),
      buildRunPayload a f = .ok rp →
      analyzeSubmitStep a env calls3 f = ⟨.ok env.submitResp, calls3 ++ [.submit rp]⟩) ∧
    discovery_analyze (argsWithTD (some "T") (some "D")) envDemo =
      ⟨.ok submitRespDemo,
       [.presign presignBodyDemo,
        .transferUpload (.str "https://upload.example/put") "text/csv" 2097152,
        .finalizeUpload [("key", .str "k-123"), ("uploadToken", .str "tok-456")],
        .submit (runPayloadDemo ++ [("title", .str "T"), ("description", .str "D")])]⟩ ∧
    discovery_analyze argsDemo envDemo =
      ⟨.ok submitRespDemo,
       [.presign presignBodyDemo,
        .transferUpload (.str "https://upload.example/put") "text/csv" 2097152,
        .finalizeUpload [("key", .str "k-123"), ("uploadToken", .str "tok-456")],
        .submit runPayloadDemo]⟩ := by
  refine ⟨?_, ?_, rfl, rfl⟩
  · intro a f fd fkey fname2 fsize2 fhash rp hfile hk hn hs hh hrp
    have hb : buildRunPayload a f =
        .ok ([("file", .obj [("key", fkey), ("name", fname2), ("size", fsize2),
                ("fileHash", fhash)]),
              ("columns", pyGetD f "columns" (.arr [])),
              ("targetColumn", .str a.target_column),
              ("depthIterations", .num a.depth_iterations),
              ("isPublic", .bool (a.visibility = "public"))]
             ++ titlePart a.title ++ descPart a.description) := by
      simp only [buildRunPayload, hfile, hk, hn, hs, hh]
    rw [hb] at hrp
    injection hrp with hrp
    subst hrp
    constructor
    · rw [hasKey_append, hasKey_append]
      simp only [descPart_no_title, Bool.or_false]
      have hbase : hasKey [("file", JsonVal.obj [("key", fkey), ("name", fname2),
          ("size", fsize2), ("fileHash", fhash)]),
          ("columns", pyGetD f "columns" (.arr [])),
          ("targetColumn", JsonVal.str a.target_column),
          ("depthIterations", JsonVal.num a.depth_iterations),
          ("isPublic", JsonVal.bool (a.visibility = "public"))] "title" = false := rfl
      rw [hbase]
      simpa using titlePart_hasKey a.title
    · rw [hasKey_append, hasKey_append]
      simp only [titlePart_no_description, Bool.or_false]
      have hbase : hasKey [("file", JsonVal.obj [("key", fkey), ("name", fname2),
          ("size", fsize2), ("fileHash", fhash)]),
          ("columns", pyGetD f "columns" (.arr [])),
          ("targetColumn", JsonVal.str a.target_column),
          ("depthIterations", JsonVal.num a.depth_iterations),
          ("isPublic", JsonVal.bool (a.visibility = "public"))] "description" = false := rfl
      rw [hbase]
      simpa using descPart_hasKey a.description
  · intro a env calls3 f rp hrp
    simp only [analyzeSubmitStep, hrp]

/-- C7 witness: the amended statement applied to the demo pipeline with a
non-empty title and no description, and to the submit step at the demo
finalize response. -/
theorem c7_title_description_truthiness_amended_witness :
    ((hasKey (runPayloadDemo ++ [("title", JsonVal.str "T")]) "title" = true ↔
      ∃ s, (argsWithTD (some "T") none).title = some s ∧ s ≠ "") ∧
     (hasKey (runPayloadDemo ++ [("title", JsonVal.str "T")]) "description" = true ↔
      ∃ s, (argsWithTD (some "T") none).description = some s ∧ s ≠ "")) ∧
    analyzeSubmitStep (argsWithTD (some "T") none) envDemo [] finalizeDemo =
      ⟨.ok submitRespDemo, [.submit (runPayloadDemo ++ [("title", JsonVal.str "T")])]⟩ :=
  ⟨c7_title_description_truthiness_amended.1 (argsWithTD (some "T") none) finalizeDemo
      [("key", .str "k-123"), ("name", .str "train.csv"), ("size", .num 2097152),
       ("fileHash", .str "abc123")]
      (.str "k-123") (.str "train.csv") (.num 2097152) (.str "abc123")
      (runPayloadDemo ++ [("title", JsonVal.str "T")]) rfl rfl rfl rfl rfl rfl,
   c7_title_description_truthiness_amended.2.1 (argsWithTD (some "T") none) envDemo []
      finalizeDemo (runPayloadDemo ++ [("title", JsonVal.str "T")]) rfl⟩

/-- The single estimate call's environment for concrete checks. -/
def envEstDemo : EstimateEnv where
  env_api_key := some "disco_env"
  estimateResp := .obj [("credit_cost", .num 1)]

/-- C8: visibility validation accepts exactly the literals "public" and
"private"; any other string is rejected with a message naming both legal
values, and the rejection happens with an empty call trace — before any of
the five analyze steps and before the single estimate call. -/
theorem c8_visibility_validation :
    (∀ v : String, _validate_visibility v = none ↔ (v = "public" ∨ v = "private")) ∧
    (∀ v : String, v ≠ "public" → v ≠ "private" →
      _validate_visibility v =
        some s!"Invalid visibility '{v}'. Must be 'public' or 'private'.") ∧
    (∀ (a : AnalyzeArgs) (env : AnalyzeEnv) (m : String),
      pyStrFalsy (_resolve_api_key a.api_key env.env_api_key) = false →
      _validate_visibility a.visibility = some m →
      discovery_analyze a env = ⟨.ok (.obj [("error", .str m)]), []⟩) ∧
    (∀ (fsm nc : Int) (nr : Option Int) (di : Int) (v : String) (ak : Option String)
       (env : EstimateEnv) (m : String),
      pyStrFalsy (_resolve_api_key ak env.env_api_key) = false →
      _validate_visibility v = some m →
      discovery_estimate fsm nc nr di v ak env = (.obj [("error", .str m)], [])) := by
  refine ⟨?_, ?_, ?_, ?_⟩
  · intro v
    constructor
    · intro h
      by_cases h1 : v = "public"
      · exact Or.inl h1
      by_cases h2 : v = "private"
      · exact Or.inr h2
      · simp [_validate_visibility, _VALID_VISIBILITY, h1, h2] at h
    · intro h
      rcases h with h | h <;> subst h <;> rfl
  · intro v h1 h2
    simp [_validate_visibility, _VALID_VISIBILITY, h1, h2]
  · intro a env m hkey hvis
    simp only [discovery_analyze, hkey, Bool.false_eq_true, if_false, hvis]
  · intro fsm nc nr di v ak env m hkey hvis
    simp only [discovery_estimate, hkey, Bool.false_eq_true, if_false, hvis]

/-- C8 witness: "PUBLIC" and "secret" are rejected before any backend call on
both paths; "public" and "private" are accepted. -/
theorem c8_visibility_validation_witness :
    (_validate_visibility "public" = none ↔ ("public" = "public" ∨ "public" = "private")) ∧
    _validate_visibility "PUBLIC" =
      some "Invalid visibility 'PUBLIC'. Must be 'public' or 'private'." ∧
    discovery_analyze (argsWithVis "PUBLIC") envDemo =
      ⟨.ok (.obj [("error",
        .str "Invalid visibility 'PUBLIC'. Must be 'public' or 'private'.")]), []⟩ ∧
    discovery_estimate 2 10 none 1 "secret" (some "disco_abc") envEstDemo =
      (.obj [("error",
        .str "Invalid visibility 'secret'. Must be 'public' or 'private'.")], []) :=
  ⟨c8_visibility_validation.1 "public",
   c8_visibility_validation.2.1 "PUBLIC" (by decide) (by decide),
   c8_visibility_validation.2.2.1 (argsWithVis "PUBLIC") envDemo
     "Invalid visibility 'PUBLIC'. Must be 'public' or 'private'." rfl
     (c8_visibility_validation.2.1 "PUBLIC" (by decide) (by decide)),
   c8_visibility_validation.2.2.2 2 10 none 1 "secret" (some "disco_abc") envEstDemo
     "Invalid visibility 'secret'. Must be 'public' or 'private'." rfl
     (c8_visibility_validation.2.1 "secret" (by decide) (by decide))⟩

/-- C9: the hint generator emits the upsell hint exactly for a positive
withheld-deep-findings count — naming the count, the novel sub-count when
nonzero, and with correct singular/plural wording — plus the privacy hint
exactly when `is_public` is truthy (defaulting to true when absent), and for
any mapping whose count field is an integer or absent it returns hints, never
an error: the two specified inputs yield exactly two and exactly zero
hints. -/
theorem c9_result_hints :
    _build_result_hints [("hidden_deep_count", .num 3), ("hidden_deep_novel_count", .num 1),
        ("is_public", .bool true)] =
      .ok ["Deep analysis found 3 more patterns, including 1 novel. Upgrade to a paid plan to unlock them: https://disco.leap-labs.com/account",
           "This was a public run — results are visible in the public gallery. Use visibility='private' for confidential data."] ∧
    _build_result_hints [("hidden_deep_count", .num 0), ("is_public", .bool false)] =
      .ok [] ∧
    _build_result_hints [("hidden_deep_count", .num 1), ("is_public", .bool false)] =
      .ok ["Deep analysis found 1 more pattern. Upgrade to a paid plan to unlock them: https://disco.leap-labs.com/account"] ∧
    _build_result_hints [("hidden_deep_count", .num 2), ("is_public", .bool false)] =
      .ok ["Deep analysis found 2 more patterns. Upgrade to a paid plan to unlock them: https://disco.leap-labs.com/account"] ∧
    _build_result_hints [] =
      .ok ["This was a public run — results are visible in the public gallery. Use visibility='private' for confidential data."] ∧
    (∀ (data : PyDict) (n : Int), dictLookup data "hidden_deep_count" = some (.num n) →
      (_build_result_hints data).isOk = true) ∧
    (∀ data : PyDict, dictLookup data "hidden_deep_count" = none →
      (_build_result_hints data).isOk = true) := by
  refine ⟨rfl, rfl, rfl, rfl, rfl, ?_, ?_⟩
  · intro data n h
    simp only [_build_result_hints, pyGetD, h, Option.getD_some]
    rfl
  · intro data h
    simp only [_build_result_hints, pyGetD, h, Option.getD_none]
    rfl

/-- C9 witness: the no-error statement applied at a concrete mapping with an
integer count and at one with the count absent. -/
theorem c9_result_hints_witness :
    (_build_result_hints [("hidden_deep_count", .num 2), ("is_public", .bool true)]).isOk =
      true ∧
    (_build_result_hints [("status", .str "completed")]).isOk = true :=
  ⟨c9_result_hints.2.2.2.2.2.1 [("hidden_deep_count", .num 2), ("is_public", .bool true)]
      2 rfl,
   c9_result_hints.2.2.2.2.2.2 [("status", .str "completed")] rfl⟩
